import Mathlib

/-!
Verification of the census-api-averages repository: a shallow embedding of
its pandas data wrangling into Lean, followed by theorems checking the
natural-language specification against the code.

Numeric cells are modelled as exact rationals together with the IEEE special
values that pandas float arithmetic can produce on these code paths
(`nan`, `inf`, `-inf`); string cells carry their payload.  Rounding is
irrelevant to every property treated here, so finite floats are embedded
as `Rat`.
-/

set_option autoImplicit false

/-- A cell of a pandas column: a string payload, a finite number, or one of
the IEEE special values produced by float division. -/
inductive Val where
  | str : String → Val
  | num : Rat → Val
  | nan : Val
  | inf : Val
  | neginf : Val
deriving DecidableEq, Repr

/-- Whether a cell is the missing-value marker `NaN`. -/
def Val.isNan : Val → Bool
  | .nan => true
  | _ => false

/-- Whether a cell is a string payload. -/
def Val.isStr : Val → Bool
  | .str _ => true
  | _ => false

/-- Whether a cell is a finite number. -/
def Val.isFinite : Val → Bool
  | .num _ => true
  | _ => false

/-- Float addition on cells.  String operands never reach the arithmetic in
the code paths modelled here (they are coerced first); they map to `nan`. -/
def addVal : Val → Val → Val
  | .num a, .num b => .num (a + b)
  | .num _, .inf => .inf
  | .inf, .num _ => .inf
  | .num _, .neginf => .neginf
  | .neginf, .num _ => .neginf
  | .inf, .inf => .inf
  | .neginf, .neginf => .neginf
  | .inf, .neginf => .nan
  | .neginf, .inf => .nan
  | _, _ => .nan

/-- Float multiplication on cells. -/
def mulVal : Val → Val → Val
  | .num a, .num b => .num (a * b)
  | .inf, .num b => if b = 0 then .nan else if 0 < b then .inf else .neginf
  | .num a, .inf => if a = 0 then .nan else if 0 < a then .inf else .neginf
  | .neginf, .num b => if b = 0 then .nan else if 0 < b then .neginf else .inf
  | .num a, .neginf => if a = 0 then .nan else if 0 < a then .neginf else .inf
  | .inf, .inf => .inf
  | .neginf, .neginf => .inf
  | .inf, .neginf => .neginf
  | .neginf, .inf => .neginf
  | _, _ => .nan

/-- Float division on cells, with numpy true-division semantics for a zero
divisor: `0/0 = nan`, `a/0 = ±inf` for nonzero `a`. -/
def divVal : Val → Val → Val
  | .num a, .num b =>
      if b = 0 then (if a = 0 then .nan else if 0 < a then .inf else .neginf)
      else .num (a / b)
  | .num _, .inf => .num 0
  | .num _, .neginf => .num 0
  | .inf, .num b => if b < 0 then .neginf else .inf
  | .neginf, .num b => if b < 0 then .inf else .neginf
  | _, _ => .nan

/-- `Series.sum()` with pandas' default `skipna=True`: `NaN` entries are
dropped, the rest are added starting from `0.0`. -/
def sumSkipNa (l : List Val) : Val :=
  (l.filter (fun v => !v.isNan)).foldl addVal (.num 0)

/-- A dataframe, column-oriented: an association list from column name to
the column's cells, in column order.  All columns of one frame have the
same length. -/
abbrev DataFrame := List (String × List Val)

/-- Column lookup, `df[c]`: `none` models a pandas `KeyError`. -/
def getCol : DataFrame → String → Option (List Val)
  | [], _ => none
  | (c', vs) :: rest, c => if c' = c then some vs else getCol rest c

/-- Column assignment, `df[c] = vs`: replaces the column in place when the
name exists, otherwise appends it as the last column. -/
def setCol : DataFrame → String → List Val → DataFrame
  | [], c, vs => [(c, vs)]
  | (c', vs') :: rest, c, vs =>
      if c' = c then (c, vs) :: rest else (c', vs') :: setCol rest c vs

/-- Number of rows of a frame (length of its first column). -/
def rowCount : DataFrame → Nat
  | [] => 0
  | (_, vs) :: _ => vs.length

/-- Boolean-mask row filtering applied to one column. -/
def applyMask (mask : List Bool) (vs : List Val) : List Val :=
  ((mask.zip vs).filter (fun p => p.1)).map (fun p => p.2)

/-- `df[mask]`: keep, in every column, exactly the rows whose mask bit is
true.  The result is a fresh frame (pandas returns a copy). -/
def maskFilter (df : DataFrame) (mask : List Bool) : DataFrame :=
  df.map (fun p => (p.1, applyMask mask p.2))

/-- Parse a digit string into a natural number; `none` on a non-digit or
the empty string. -/
def parseNatDigits (cs : List Char) : Option Nat :=
  if cs = [] then none
  else cs.foldl
    (fun acc c => acc.bind (fun n => if c.isDigit then some (n * 10 + (c.toNat - 48)) else none))
    (some 0)

/-- Python `int(...)` on a string: an optional sign followed by digits. -/
def strToInt (s : String) : Option Int :=
  match s.data with
  | '-' :: rest => (parseNatDigits rest).map (fun n => -(n : Int))
  | ds => (parseNatDigits ds).map (fun n => (n : Int))

/-- Python `float(...)` on a string: optional sign, digits, optional
fractional part.  (Exponent notation does not occur in this data.) -/
def strToRat (s : String) : Option Rat :=
  let signed : Bool × List Char :=
    match s.data with
    | '-' :: rest => (true, rest)
    | ds => (false, ds)
  let ip := signed.2.takeWhile (fun c => c ≠ '.')
  let rest := signed.2.dropWhile (fun c => c ≠ '.')
  let mag : Option Rat :=
    match rest with
    | [] => (parseNatDigits ip).map (fun n => (n : Rat))
    | _ :: fp =>
        match parseNatDigits ip, parseNatDigits fp with
        | some n, some f => some ((n : Rat) + (f : Rat) / ((10 : Rat) ^ fp.length))
        | _, _ => none
  mag.map (fun q => if signed.1 then -q else q)

/-- `astype(float)` on one cell: finite numbers and IEEE specials pass
through, numeric strings are parsed, anything else raises (`ValueError`). -/
def toFloat : Val → Except String Val
  | .num q => .ok (.num q)
  | .nan => .ok .nan
  | .inf => .ok .inf
  | .neginf => .ok .neginf
  | .str s =>
      match strToRat s with
      | some q => .ok (.num q)
      | none => .error "ValueError"

/-- Truncation toward zero of a rational, as Python `int(...)` does on a
float. -/
def ratTrunc (q : Rat) : Int := q.num.tdiv (q.den : Int)

/-- The lambda of `compute_averages`' RUCA branch applied to one cell:
`"urban" if int(x) in range(1, 4) else "rural"`.  `int` raises on `NaN`,
infinities and non-integer strings. -/
def classifyRucaVal : Val → Except String Val
  | .num q => .ok (.str (if 1 ≤ ratTrunc q ∧ ratTrunc q < 4 then "urban" else "rural"))
  | .str s =>
      match strToInt s with
      | some n => .ok (.str (if 1 ≤ n ∧ n < 4 then "urban" else "rural"))
      | none => .error "ValueError"
  | _ => .error "ValueError"

/-- The coercion loop of `compute_averages`:
`for var in varList: df[var] = df[var].astype(float)`.
A missing column raises `KeyError`, a non-numeric cell `ValueError`. -/
def coerceVars : DataFrame → List String → Except String DataFrame
  | df, [] => .ok df
  | df, v :: rest =>
      match getCol df v with
      | none => .error ("KeyError: " ++ v)
      | some vs =>
          match vs.mapM toFloat with
          | .error e => .error e
          | .ok vs' => coerceVars (setCol df v vs') rest

/-- `df[varList].sum(axis=1)` with pandas' default `skipna=True`:
the row-wise sum over the listed columns, a `NaN` cell counting as zero. -/
def rowTotals (df : DataFrame) (varList : List String) : List Val :=
  varList.foldl
    (fun acc v =>
      List.zipWith (fun a x => addVal a (if x.isNan then .num 0 else x)) acc
        ((getCol df v).getD []))
    (List.replicate (rowCount df) (Val.num 0))

/-- The averaging loop of `compute_averages`:
`for var in varList: df[f"average_{var}"] = df[var] / df["total_population"]`. -/
def addAverages (df : DataFrame) (varList : List String) : DataFrame :=
  varList.foldl
    (fun d v =>
      setCol d ("average_" ++ v)
        (List.zipWith divVal ((getCol d v).getD []) ((getCol d "total_population").getD [])))
    df

/-- The tail of `compute_averages` after filtering: coerce the varList to
float, store the row-wise `total_population`, then add the per-variable
average columns. -/
def computeTail (df : DataFrame) (varList : List String) : Except String DataFrame :=
  match coerceVars df varList with
  | .error e => .error e
  | .ok df1 => .ok (addAverages (setCol df1 "total_population" (rowTotals df1 varList)) varList)

/-- `compute_averages(df, varList, race, area, ruca)` from `src/main.py`.
The first component of the result is the state of the caller's dataframe
after the call (the RUCA branch assigns `df["ruca"]` on the caller's object
before filtering); the second is the returned frame or the raised error. -/
def compute_averages (df : DataFrame) (varList : List String) (race area : String)
    (ruca : Bool) : DataFrame × Except String DataFrame :=
  if ruca then
    match getCol df "ruca" with
    | none => (df, .error "KeyError: ruca")
    | some rvals =>
        match rvals.mapM classifyRucaVal with
        | .error e => (df, .error e)
        | .ok rvals' =>
            let df0 := setCol df "ruca" rvals'
            match getCol df0 "race" with
            | none => (df0, .error "KeyError: race")
            | some racevals =>
                let mask := List.zipWith
                  (fun r u => decide (r = Val.str race) && decide (u = Val.str area))
                  racevals rvals'
                (df0, computeTail (maskFilter df0 mask) varList)
  else
    match getCol df "race" with
    | none => (df, .error "KeyError: race")
    | some racevals =>
        match getCol df "area" with
        | none => (df, .error "KeyError: area")
        | some areavals =>
            let mask := List.zipWith
              (fun r a => decide (r = Val.str race) && decide (a = Val.str area))
              racevals areavals
            (df, computeTail (maskFilter df mask) varList)

/-- `race_code_map` from `src/census_averages/utils.py`. -/
def race_code_map : List (String × String) :=
  [("white", "B02001_002E"), ("black", "B02001_003E"),
   ("native", "B02001_004E"), ("asian", "B02001_005E")]

/-- Dict subscript `race_code_map[race]`; `none` models `KeyError`. -/
def raceCode : String → Option String
  | r => (race_code_map.find? (fun p => p.1 = r)).map (fun p => p.2)

/-- `compute_weights(df, races, level)` from `src/census_averages/utils.py`:
for each race, divide the race's population column by its (skipna) column
total and store the quotient as `weight_{race}_{level}`. -/
def compute_weights (df : DataFrame) (races : List String) (level : String) :
    Except String DataFrame :=
  match races with
  | [] => .ok df
  | r :: rest =>
      match raceCode r with
      | none => .error ("KeyError: " ++ r)
      | some code =>
          match getCol df code with
          | none => .error ("KeyError: " ++ code)
          | some vals =>
              let total := sumSkipNa vals
              compute_weights
                (setCol df ("weight_" ++ r ++ "_" ++ level) (vals.map (fun v => divVal v total)))
                rest level

/-- The loop body accumulator of `compute_weighted_averages`: builds the
fresh output frame column by column. -/
def cwaAux (df : DataFrame) (level : String) : List String → DataFrame →
    Except String DataFrame
  | [], acc => .ok acc
  | r :: rest, acc =>
      match getCol df ("weight_" ++ r ++ "_" ++ level) with
      | none => .error ("KeyError: weight_" ++ r ++ "_" ++ level)
      | some ws =>
          match raceCode r with
          | none => .error ("KeyError: " ++ r)
          | some code =>
              match getCol df code with
              | none => .error ("KeyError: " ++ code)
              | some pops =>
                  cwaAux df level rest (setCol acc r (List.zipWith mulVal ws pops))

/-- `compute_weighted_averages(df, races, level)` from
`src/census_averages/utils.py`: a new frame whose column for each race is
`df[weight_{race}_{level}] * df[race_code_map[race]]`. -/
def compute_weighted_averages (df : DataFrame) (races : List String) (level : String) :
    Except String DataFrame :=
  cwaAux df level races []

/-- An outgoing HTTP GET as issued by `requests.get`: the URL and the
timeout argument, when one was passed. -/
structure HttpRequest where
  url : String
  timeout : Option Nat
deriving DecidableEq, Repr

/-- An HTTP response: the status code and the body, already deserialized
into the row-major table both fetchers expect (`none` when the body does
not deserialize). -/
structure HttpResponse where
  status : Nat
  body : Option (List (List String))
deriving DecidableEq, Repr

/-- `pd.DataFrame(data[1:], columns=data[0])`: build a column-oriented
frame from a header row and data rows; a short row yields `NaN` cells. -/
def tableOfRows (header : List String) (rows : List (List String)) : DataFrame :=
  header.enum.map (fun p =>
    (p.2, rows.map (fun r =>
      match r.get? p.1 with
      | some s => Val.str s
      | none => Val.nan)))

/-- The GET issued by `download_census_data` in `src/main.py`: the query
URL built by its f-strings, with `timeout=10`. -/
def download_census_data_request (api_key : String) (year : Nat) (dataset : String)
    (varList : List String) (geography state county tract block_group : String) :
    HttpRequest :=
  let url := "https://api.census.gov/data/" ++ toString year ++ "/" ++ dataset
  let get_vars := String.intercalate "," varList
  let base := url ++ "?get=" ++ get_vars ++ "&for=" ++ geography ++ ":*&in=state:" ++ state
    ++ "%20county:" ++ county ++ "&key=" ++ api_key
  let withTract := if tract ≠ "*" then base ++ "%20tract:" ++ tract else base
  let withBg := if block_group ≠ "*" then withTract ++ "%20block%20group:" ++ block_group
    else withTract
  ⟨withBg, some 10⟩

/-- How `download_census_data` consumes its response: `response.json()` is
taken and split into header and rows with no inspection of the status code
(`raise_for_status` is never called on this path). -/
def download_census_data_parse (resp : HttpResponse) : Except String DataFrame :=
  match resp.body with
  | none => .error "JSONDecodeError"
  | some [] => .error "IndexError"
  | some (header :: rows) => .ok (tableOfRows header rows)

/-- `location_key_map[location]` from `download_acs_data` in
`src/census_averages/utils.py`; `none` models `KeyError`. -/
def location_key_map (location state county tract block_group : String) : Option String :=
  if location = "block group" then
    some ("&for=block%20group:" ++ block_group ++ "&in=state:" ++ state ++ "%20county:"
      ++ county ++ "%20tract:" ++ tract)
  else if location = "tract" then
    some ("&for=tract:" ++ tract ++ "&in=state:" ++ state ++ "%20county:" ++ county)
  else if location = "county" then
    some ("&for=county:" ++ county ++ "&in=state:" ++ state)
  else if location = "state" then
    some ("&for=state:" ++ state)
  else none

/-- The GET issued by `download_acs_data` in `src/census_averages/utils.py`:
`requests.get(query_url)` is called with no timeout argument at all. -/
def download_acs_data_request (varList : List String) (user_key : String)
    (host year dataset_acronym g location state county tract block_group : String) :
    Option HttpRequest :=
  (location_key_map location state county tract block_group).map (fun locPart =>
    ⟨host ++ year ++ "/" ++ dataset_acronym ++ g ++ String.intercalate "," varList
      ++ "&key=" ++ user_key ++ locPart, none⟩)

/-- How `download_acs_data` consumes its response: `response.text` is
literal-evaluated into a list and split into header and rows, again with no
inspection of the status code. -/
def download_acs_data_parse (resp : HttpResponse) : Except String DataFrame :=
  match resp.body with
  | none => .error "ValueError: malformed literal"
  | some [] => .error "IndexError"
  | some (header :: rows) => .ok (tableOfRows header rows)

/-- The geography list of `download_shapefile`. -/
def shapefile_geographies : List String := ["state", "county", "tract", "bg"]

/-- `os.path.join(dest_dir, f"tl_{year}_{geography}.zip")`. -/
def shapefile_zip_path (dest year g : String) : String :=
  dest ++ "/tl_" ++ year ++ "_" ++ g ++ ".zip"

/-- The download URL of `download_shapefile`: tract and block-group archives
are state-specific, state and county archives are national. -/
def shapefile_url (year state g : String) : String :=
  if g = "tract" ∨ g = "bg" then
    "https://www2.census.gov/geo/tiger/TIGER" ++ year ++ "/" ++ g.toUpper
      ++ "/tl_" ++ year ++ "_" ++ state ++ "_" ++ g ++ ".zip"
  else
    "https://www2.census.gov/geo/tiger/TIGER" ++ year ++ "/" ++ g.toUpper
      ++ "/tl_" ++ year ++ "_us_" ++ g ++ ".zip"

/-- One loop iteration of `download_shapefile`.  The state is the set of
paths present in the filesystem paired with the list of URLs fetched so
far; the network is a function from URL to `some` archive member list
(HTTP 200) or `none` (any other status).  An existing archive file skips
the fetch; a successful fetch writes the archive and extracts its members
into the destination directory. -/
def download_shapefile_step (net : String → Option (List String))
    (year state dest : String) (acc : List String × List String) (g : String) :
    List String × List String :=
  let zip := shapefile_zip_path dest year g
  if zip ∈ acc.1 then acc
  else
    let url := shapefile_url year state g
    match net url with
    | some members => (acc.1 ++ [zip] ++ members.map (fun m => dest ++ "/" ++ m),
        acc.2 ++ [url])
    | none => (acc.1, acc.2 ++ [url])

/-- `download_shapefile(year, state, dest_dir)` from
`src/census_averages/utils.py`, over the filesystem/network model: returns
the final filesystem contents and the list of URLs actually fetched. -/
def download_shapefile (net : String → Option (List String))
    (year state dest : String) (fs : List String) : List String × List String :=
  shapefile_geographies.foldl (download_shapefile_step net year state dest) (fs, [])

/-- The per-level rename dictionary of `merge_areas` in
`src/census_averages/utils.py`; every level other than `bg`, `tract` and
`county` takes the `else` (state) branch, as in the source. -/
def merge_areas_rename (level : String) : List (String × String) :=
  if level = "bg" then
    [("STATEFP", "state_fips"), ("COUNTYFP", "county_fips"), ("TRACTCE", "tract_fips"),
     ("BLKGRPCE", "block_group_fips"), ("NAMELSAD", "block_group_name")]
  else if level = "tract" then
    [("STATEFP", "state_fips"), ("COUNTYFP", "county_fips"), ("TRACTCE", "tract_fips"),
     ("NAMELSAD", "tract_name")]
  else if level = "county" then
    [("STATEFP", "state_fips"), ("COUNTYFP", "county_fips"), ("NAMELSAD", "county_name")]
  else
    [("STATEFP", "state_fips"), ("NAMELSAD", "state_name")]

/-- `DataFrame.rename(columns=...)` on a list of column names: a name in
the dictionary is replaced, any other name is kept. -/
def renameCols (ren : List (String × String)) (cols : List String) : List String :=
  cols.map (fun c => ((ren.find? (fun p => p.1 = c)).map (fun p => p.2)).getD c)

/-- A two-row population frame for the share-weighted aggregator: white
populations 10 and 20, total 30. -/
def cxPopDf : DataFrame := [("B02001_002E", [Val.num 10, Val.num 20])]

/-- The spec's weighted-mean scenario rows, trivially grouped:
`[{pop:10,var:5},{pop:20,var:10}]`. -/
def scenarioDf : DataFrame :=
  [("race", [Val.str "all", Val.str "all"]), ("area", [Val.str "all", Val.str "all"]),
   ("pop", [Val.num 10, Val.num 20]), ("var", [Val.num 5, Val.num 10])]

/-- A one-row frame whose first variable is missing (`NaN`) and whose
second is 5. -/
def nanDf : DataFrame :=
  [("race", [Val.str "all"]), ("area", [Val.str "all"]),
   ("v1", [Val.nan]), ("v2", [Val.num 5])]

/-- Claim C4: `compute_averages` maps a RUCA code to "urban" exactly when
the code is in {1,2,3} and to "rural" for every other integer, including 4
through 10 and out-of-range values; codes 1, 3, 4, 10 map to urban, urban,
rural, rural. -/
theorem ruca_urban_iff :
    (∀ n : ℤ, classifyRucaVal (Val.num (n : ℚ))
      = .ok (.str (if n = 1 ∨ n = 2 ∨ n = 3 then "urban" else "rural")))
    ∧ [Val.num 1, Val.num 3, Val.num 4, Val.num 10].map classifyRucaVal
      = [.ok (.str "urban"), .ok (.str "urban"), .ok (.str "rural"), .ok (.str "rural")] := by
  constructor
  · intro n
    have h1 : ratTrunc (n : ℚ) = n := by simp [ratTrunc]
    have h2 : (1 ≤ n ∧ n < 4) ↔ (n = 1 ∨ n = 2 ∨ n = 3) := by omega
    simp [classifyRucaVal, h1, h2]
  · norm_num [classifyRucaVal, ratTrunc]

/-- Claim C7: `merge_areas` renames the boundary identifier columns to the
exact level-dependent sets of Table 4.3, for each of the four geography
levels. -/
theorem merge_areas_rename_targets :
    renameCols (merge_areas_rename "bg")
        ["STATEFP", "COUNTYFP", "TRACTCE", "BLKGRPCE", "NAMELSAD"]
      = ["state_fips", "county_fips", "tract_fips", "block_group_fips", "block_group_name"]
    ∧ renameCols (merge_areas_rename "tract") ["STATEFP", "COUNTYFP", "TRACTCE", "NAMELSAD"]
      = ["state_fips", "county_fips", "tract_fips", "tract_name"]
    ∧ renameCols (merge_areas_rename "county") ["STATEFP", "COUNTYFP", "NAMELSAD"]
      = ["state_fips", "county_fips", "county_name"]
    ∧ renameCols (merge_areas_rename "state") ["STATEFP", "NAMELSAD"]
      = ["state_fips", "state_name"] := by
  refine ⟨?_, ?_, ?_, ?_⟩ <;> decide

/-- Claim C1 counterexample: on the two-row input with white populations 10
and 20 (total 30), `compute_weights` followed by `compute_weighted_averages`
yields contributions summing to 50/3, not the original total 30 — the
decomposition identity claimed for every input fails on any multi-row
group. -/
theorem weighted_contribs_not_total_cx :
    ((compute_weights cxPopDf ["white"] "tract").bind
        (fun d => compute_weighted_averages d ["white"] "tract")).map
        (fun w => (getCol w "white").map sumSkipNa)
      = .ok (some (Val.num (50 / 3)))
    ∧ sumSkipNa [Val.num 10, Val.num 20] = Val.num 30
    ∧ Val.num (50 / 3) ≠ Val.num 30 := by
  refine ⟨?_, ?_, ?_⟩ <;>
  · simp [compute_weights, cxPopDf, raceCode, race_code_map, getCol, setCol, sumSkipNa,
      addVal, divVal, compute_weighted_averages, cwaAux, mulVal, Val.isNan, List.find?,
      Except.bind, bind, Except.map]
    try norm_num [mulVal, addVal, sumSkipNa, Val.isNan]

/-- Claim C2 counterexample: on the spec's scenario rows
`[{pop:10,var:5},{pop:20,var:10}]` grouped trivially, `compute_averages`
puts 1/3 in both entries of `average_var`; no population-weighted mean
25/3 (≈ 8.33) is computed anywhere in the result. -/
theorem compute_averages_not_weighted_mean_cx :
    ((compute_averages scenarioDf ["pop", "var"] "all" "all" false).2).map
        (fun d => getCol d "average_var")
      = .ok (some [Val.num (1 / 3), Val.num (1 / 3)])
    ∧ Val.num (1 / 3) ≠ Val.num (25 / 3) := by
  refine ⟨?_, ?_⟩ <;>
  · simp [compute_averages, scenarioDf, getCol, setCol, maskFilter, applyMask,
      computeTail, coerceVars, toFloat, rowTotals, rowCount, addAverages,
      List.mapM, List.mapM.loop, addVal, divVal, Val.isNan, sumSkipNa,
      Except.bind, bind, Except.map, pure, Except.pure]
    try norm_num

/-- Claim C5 counterexample: the statistics-API GET of `download_acs_data`
is issued with no timeout at all, and a status-500 response with a
well-formed body is parsed into a table by both fetchers instead of being
treated as a fatal fetch error. -/
theorem fetcher_timeout_status_cx :
    (download_acs_data_request ["B02001_002E"] "KEY" "https://api.census.gov/data/" "2019"
        "acs5" "?get=" "block group" "27" "*" "*" "*").map HttpRequest.timeout
      = some none
    ∧ download_census_data_parse ⟨500, some [["NAME"], ["x"]]⟩
      = .ok [("NAME", [Val.str "x"])]
    ∧ download_acs_data_parse ⟨500, some [["NAME"], ["x"]]⟩
      = .ok [("NAME", [Val.str "x"])] := by
  refine ⟨?_, ?_, ?_⟩ <;> rfl

/-- Claim C8 counterexample: with `v1` missing (`NaN`) in the single
surviving row, `compute_averages` produces `NaN` as that row's
`average_v1` — the missing entry propagates into the computed average, so
no explicit zero-fill happens before weighting. -/
theorem compute_averages_nan_propagates_cx :
    ((compute_averages nanDf ["v1", "v2"] "all" "all" false).2).map
        (fun d => getCol d "average_v1")
      = .ok (some [Val.nan])
    ∧ Val.isNan Val.nan = true := by
  refine ⟨?_, ?_⟩ <;>
  · simp [compute_averages, nanDf, getCol, setCol, maskFilter, applyMask,
      computeTail, coerceVars, toFloat, rowTotals, rowCount, addAverages,
      List.mapM, List.mapM.loop, addVal, divVal, Val.isNan, sumSkipNa,
      Except.bind, bind, Except.map, pure, Except.pure]
    try norm_num

/-- Claim C2 (amended): `compute_averages` computes, for each target
variable, that variable's share of the row-wise total of the target
variables — `average_var = var / (pop + var)` per row — not a group-by
population-weighted mean; on the spec scenario this gives 1/3 per row. -/
theorem compute_averages_rowwise_share (p1 v1 p2 v2 : ℚ) (h1 : p1 + v1 ≠ 0)
    (h2 : p2 + v2 ≠ 0) :
    ((compute_averages
        [("race", [Val.str "all", Val.str "all"]), ("area", [Val.str "all", Val.str "all"]),
         ("pop", [Val.num p1, Val.num p2]), ("var", [Val.num v1, Val.num v2])]
        ["pop", "var"] "all" "all" false).2).map (fun d => getCol d "average_var")
      = .ok (some [Val.num (v1 / (p1 + v1)), Val.num (v2 / (p2 + v2))]) := by
  simp [compute_averages, getCol, setCol, maskFilter, applyMask, computeTail, coerceVars,
    toFloat, rowTotals, rowCount, addAverages, List.mapM, List.mapM.loop, addVal, divVal,
    Val.isNan, sumSkipNa, Except.bind, bind, Except.map, pure, Except.pure, h1, h2]

/-- Claim C2 witness: the amended row-wise shares at the scenario numbers. -/
theorem compute_averages_rowwise_share_witness :
    ((compute_averages
        [("race", [Val.str "all", Val.str "all"]), ("area", [Val.str "all", Val.str "all"]),
         ("pop", [Val.num 10, Val.num 20]), ("var", [Val.num 5, Val.num 10])]
        ["pop", "var"] "all" "all" false).2).map (fun d => getCol d "average_var")
      = .ok (some [Val.num ((5 : ℚ) / (10 + 5)), Val.num ((10 : ℚ) / (20 + 10))]) :=
  compute_averages_rowwise_share 10 5 20 10 (by norm_num) (by norm_num)

/-- Claim C8 (amended): a missing value is skipped (counted as zero) in the
row-wise `total_population`, but there is no explicit fill: the missing
variable's own average comes out `NaN`, while the other variable's average
is unaffected. -/
theorem compute_averages_nan_skipna (q : ℚ) (hq : q ≠ 0) :
    ((compute_averages [("race", [Val.str "all"]), ("area", [Val.str "all"]),
        ("v1", [Val.nan]), ("v2", [Val.num q])] ["v1", "v2"] "all" "all" false).2).map
        (fun d => (getCol d "total_population", getCol d "average_v1", getCol d "average_v2"))
      = .ok (some [Val.num q], some [Val.nan], some [Val.num 1]) := by
  simp [compute_averages, getCol, setCol, maskFilter, applyMask, computeTail, coerceVars,
    toFloat, rowTotals, rowCount, addAverages, List.mapM, List.mapM.loop, addVal, divVal,
    Val.isNan, sumSkipNa, Except.bind, bind, Except.map, pure, Except.pure, hq, div_self]

/-- Claim C8 amended witness at `q = 5`. -/
theorem compute_averages_nan_skipna_witness :
    ((compute_averages [("race", [Val.str "all"]), ("area", [Val.str "all"]),
        ("v1", [Val.nan]), ("v2", [Val.num 5])] ["v1", "v2"] "all" "all" false).2).map
        (fun d => (getCol d "total_population", getCol d "average_v1", getCol d "average_v2"))
      = .ok (some [Val.num 5], some [Val.nan], some [Val.num 1]) :=
  compute_averages_nan_skipna 5 (by norm_num)

/-- Claim C5 (amended): `download_census_data`'s statistics-API GET carries
a bounded 10-second timeout but `download_acs_data`'s GET carries none, and
neither fetcher inspects the response status: the body is parsed into a
table regardless of a non-2xx status code. -/
theorem fetcher_timeout_status_amended :
    (∀ (api_key : String) (year : Nat) (dataset : String) (varList : List String)
        (geography state county tract block_group : String),
      (download_census_data_request api_key year dataset varList geography state county
          tract block_group).timeout = some 10)
    ∧ (∀ (varList : List String) (user_key host year dataset_acronym g location state
          county tract block_group : String),
        (download_acs_data_request varList user_key host year dataset_acronym g location
            state county tract block_group).map HttpRequest.timeout
          = (location_key_map location state county tract block_group).map (fun _ => none))
    ∧ (∀ (s s' : Nat) (b : Option (List (List String))),
        download_census_data_parse ⟨s, b⟩ = download_census_data_parse ⟨s', b⟩)
    ∧ (∀ (s s' : Nat) (b : Option (List (List String))),
        download_acs_data_parse ⟨s, b⟩ = download_acs_data_parse ⟨s', b⟩) := by
  refine ⟨?_, ?_, ?_, ?_⟩
  · intro api_key year dataset varList geography state county tract block_group
    simp [download_census_data_request]
  · intro varList user_key host year dataset_acronym g location state county tract bg
    cases h : location_key_map location state county tract bg <;>
      simp [download_acs_data_request, h]
  · intro s s' b
    cases b with
    | none => rfl
    | some l => cases l <;> rfl
  · intro s s' b
    cases b with
    | none => rfl
    | some l => cases l <;> rfl

theorem foldl_addVal_num (l : List ℚ) (a : ℚ) :
    (l.map Val.num).foldl addVal (Val.num a) = Val.num (a + l.sum) := by
  induction l generalizing a with
  | nil => simp
  | cons q tl ih => simp [addVal, ih, add_assoc]

theorem sumSkipNa_map_num (l : List ℚ) : sumSkipNa (l.map Val.num) = Val.num l.sum := by
  have hf : (l.map Val.num).filter (fun v => !v.isNan) = l.map Val.num := by
    induction l with
    | nil => rfl
    | cons q tl ih => simp_all [Val.isNan]
  rw [sumSkipNa, hf, foldl_addVal_num, zero_add]

theorem zipWith_map_map {α β γ δ : Type} (f : β → γ → δ) (g : α → β) (h : α → γ)
    (l : List α) :
    List.zipWith f (l.map g) (l.map h) = l.map (fun x => f (g x) (h x)) := by
  induction l with
  | nil => rfl
  | cons q tl ih => simp [ih]

theorem sum_map_div_mul (qs : List ℚ) (T : ℚ) :
    (qs.map (fun p => p / T * p)).sum = (qs.map (fun p => p * p)).sum / T := by
  induction qs with
  | nil => simp
  | cons q tl ih =>
      rw [List.map_cons, List.sum_cons, List.map_cons, List.sum_cons, ih, add_div,
        div_mul_eq_mul_div]

theorem sumSkipNa_map_num_comp (f : ℚ → ℚ) (l : List ℚ) :
    sumSkipNa (l.map (fun x => Val.num (f x))) = Val.num ((l.map f).sum) := by
  rw [show (fun x => Val.num (f x)) = Val.num ∘ f from rfl, ← List.map_map, sumSkipNa_map_num]

theorem weight_white_ne (lvl : String) :
    ¬ (("B02001_002E" : String) = "weight_white_" ++ lvl) := by
  intro h
  have hlen : (11 : Nat) = 13 + lvl.length := by
    have h2 := congrArg String.length h
    rw [String.length_append] at h2
    exact h2
  omega

theorem compute_weights_single (qs : List ℚ) (lvl : String) (hT : qs.sum ≠ 0) :
    compute_weights [("B02001_002E", qs.map Val.num)] ["white"] lvl
      = .ok [("B02001_002E", qs.map Val.num),
             ("weight_white_" ++ lvl, qs.map (fun p => Val.num (p / qs.sum)))] := by
  simp only [compute_weights, raceCode, race_code_map, List.find?, getCol, setCol]
  simp [sumSkipNa_map_num, weight_white_ne lvl, List.map_map, Function.comp, divVal, hT]

/-- Claim C1 (amended): each row's weighted contribution is
`pop² / total`, so over all rows the contributions sum to
`(Σ pop²) / total`, which is not the original total in general; only for a
single-row input (with nonzero population) does the contribution reproduce
that row's population exactly. -/
theorem weighted_contribs_sum_of_squares (qs : List ℚ) (lvl : String) (hT : qs.sum ≠ 0) :
    ((compute_weights [("B02001_002E", qs.map Val.num)] ["white"] lvl).bind
        (fun d => compute_weighted_averages d ["white"] lvl)).map
        (fun w => (getCol w "white").map sumSkipNa)
      = .ok (some (Val.num ((qs.map (fun p => p * p)).sum / qs.sum)))
    ∧ ∀ p : ℚ, p ≠ 0 →
        ((compute_weights [("B02001_002E", [Val.num p])] ["white"] lvl).bind
            (fun d => compute_weighted_averages d ["white"] lvl)).map
            (fun w => getCol w "white")
          = .ok (some [Val.num p]) := by
  constructor
  · rw [compute_weights_single qs lvl hT]
    simp [Except.bind, compute_weighted_averages, cwaAux, raceCode, race_code_map,
      List.find?, getCol, setCol, weight_white_ne lvl, zipWith_map_map, mulVal,
      Except.map, sumSkipNa_map_num_comp, sum_map_div_mul]
  · intro p hp
    have hp' : ([p] : List ℚ).sum ≠ 0 := by simpa using hp
    have hrw : [Val.num p] = ([p] : List ℚ).map Val.num := rfl
    rw [hrw, compute_weights_single [p] lvl hp']
    simp [Except.bind, compute_weighted_averages, cwaAux, raceCode, race_code_map,
      List.find?, getCol, setCol, weight_white_ne lvl, mulVal, Except.map, div_self hp]

/-- Claim C1 witness: the sum-of-squares identity at populations 10 and 20
and the exact single-row decomposition at population 7. -/
theorem weighted_contribs_sum_of_squares_witness :
    ((compute_weights [("B02001_002E", ([10, 20] : List ℚ).map Val.num)] ["white"] "tract").bind
        (fun d => compute_weighted_averages d ["white"] "tract")).map
        (fun w => (getCol w "white").map sumSkipNa)
      = .ok (some (Val.num ((([10, 20] : List ℚ).map (fun p => p * p)).sum
          / ([10, 20] : List ℚ).sum)))
    ∧ ((compute_weights [("B02001_002E", [Val.num 7])] ["white"] "tract").bind
        (fun d => compute_weighted_averages d ["white"] "tract")).map
        (fun w => getCol w "white")
      = .ok (some [Val.num 7]) :=
  ⟨(weighted_contribs_sum_of_squares [10, 20] "tract" (by norm_num)).1,
   (weighted_contribs_sum_of_squares [10, 20] "tract" (by norm_num)).2 7 (by norm_num)⟩

theorem getCol_setCol_self (df : DataFrame) (c : String) (vs : List Val) :
    getCol (setCol df c vs) c = some vs := by
  induction df with
  | nil => simp [setCol, getCol]
  | cons p rest ih =>
      by_cases h : p.1 = c
      · simp [setCol, getCol, h]
      · simp [setCol, getCol, h, ih]

theorem getCol_setCol_ne (df : DataFrame) (c c' : String) (vs : List Val)
    (h : c' ≠ c) : getCol (setCol df c vs) c' = getCol df c' := by
  induction df with
  | nil => simp [setCol, getCol, Ne.symm h]
  | cons p rest ih =>
      by_cases hp : p.1 = c
      · simp [setCol, getCol, hp, Ne.symm h]
      · simp only [setCol, if_neg hp, getCol]
        by_cases hp' : p.1 = c'
        · simp [hp']
        · simp [hp', ih]

/-- Claim C9: when a race's population column sums to zero,
`compute_weights` still returns normally (no exception), but every entry of
the produced weight column is a non-finite value (`NaN` or `±inf`); when
the total is nonzero and the entries are finite numbers, every weight is a
finite number. -/
theorem compute_weights_zero_total :
    (∀ (vals : List Val) (lvl : String),
        (∀ v ∈ vals, v.isStr = false) → sumSkipNa vals = Val.num 0 →
        ∃ out, compute_weights [("B02001_002E", vals)] ["white"] lvl = .ok out
          ∧ ∃ ws, getCol out ("weight_white_" ++ lvl) = some ws
              ∧ ∀ w ∈ ws, w.isFinite = false)
    ∧ (∀ (qs : List ℚ) (lvl : String), qs.sum ≠ 0 →
        ∃ out, compute_weights [("B02001_002E", qs.map Val.num)] ["white"] lvl = .ok out
          ∧ ∃ ws, getCol out ("weight_white_" ++ lvl) = some ws
              ∧ ∀ w ∈ ws, w.isFinite = true) := by
  constructor
  · intro vals lvl hstr htot
    refine ⟨setCol [("B02001_002E", vals)] ("weight_white_" ++ lvl)
        (vals.map (fun v => divVal v (Val.num 0))), ?_,
      vals.map (fun v => divVal v (Val.num 0)), ?_, ?_⟩
    · simp [compute_weights, raceCode, race_code_map, List.find?, getCol, htot]
    · exact getCol_setCol_self _ _ _
    · intro w hw
      obtain ⟨v, hv, rfl⟩ := List.mem_map.mp hw
      cases v with
      | str s => exact absurd (hstr _ hv) (by simp [Val.isStr])
      | num a =>
          simp only [divVal, if_pos rfl]
          split_ifs <;> rfl
      | nan => rfl
      | inf => simp only [divVal]; split_ifs <;> rfl
      | neginf => simp only [divVal]; split_ifs <;> rfl
  · intro qs lvl hT
    refine ⟨[("B02001_002E", qs.map Val.num),
        ("weight_white_" ++ lvl, qs.map (fun p => Val.num (p / qs.sum)))],
      compute_weights_single qs lvl hT, qs.map (fun p => Val.num (p / qs.sum)), ?_, ?_⟩
    · simp [getCol, weight_white_ne lvl]
    · intro w hw
      obtain ⟨v, hv, rfl⟩ := List.mem_map.mp hw
      rfl

/-- Claim C9 witness: populations 5 and −5 sum to zero and give the weight
column `[inf, −inf]`; populations 10 and 20 give finite weights. -/
theorem compute_weights_zero_total_witness :
    (∃ out, compute_weights [("B02001_002E", [Val.num 5, Val.num (-5)])] ["white"] "x"
        = .ok out
      ∧ ∃ ws, getCol out ("weight_white_" ++ "x") = some ws
          ∧ ∀ w ∈ ws, w.isFinite = false)
    ∧ (∃ out, compute_weights [("B02001_002E", ([10, 20] : List ℚ).map Val.num)]
          ["white"] "x" = .ok out
        ∧ ∃ ws, getCol out ("weight_white_" ++ "x") = some ws
            ∧ ∀ w ∈ ws, w.isFinite = true) :=
  ⟨compute_weights_zero_total.1 [Val.num 5, Val.num (-5)] "x" (by decide)
      (by norm_num [sumSkipNa, addVal, Val.isNan]),
   compute_weights_zero_total.2 [10, 20] "x" (by norm_num)⟩

/-- Claim C10: with `ruca=True`, `compute_averages` overwrites the caller's
`"ruca"` column in place with the urban/rural classification before any
filtering (the mutated frame is returned as the post-call state of the
input, whatever later steps do), every other column of the input is left
unchanged, and with `ruca=False` the input frame is not mutated at all. -/
theorem compute_averages_mutation :
    (∀ (df : DataFrame) (varList : List String) (race area : String),
        (compute_averages df varList race area false).1 = df)
    ∧ (∀ (df : DataFrame) (varList : List String) (race area : String)
          (rvals rvals' : List Val),
        getCol df "ruca" = some rvals →
        rvals.mapM classifyRucaVal = .ok rvals' →
        (compute_averages df varList race area true).1 = setCol df "ruca" rvals'
          ∧ (∀ c, c ≠ "ruca" → getCol (setCol df "ruca" rvals') c = getCol df c)
          ∧ getCol (setCol df "ruca" rvals') "ruca" = some rvals') := by
  constructor
  · intro df varList race area
    cases h1 : getCol df "race" with
    | none => simp [compute_averages, h1]
    | some racevals =>
        cases h2 : getCol df "area" with
        | none => simp [compute_averages, h1, h2]
        | some areavals => simp [compute_averages, h1, h2]
  · intro df varList race area rvals rvals' h1 h2
    have h2' : List.mapM.loop classifyRucaVal rvals [] = Except.ok rvals' := h2
    refine ⟨?_, ?_, getCol_setCol_self _ _ _⟩
    · cases h3 : getCol (setCol df "ruca" rvals') "race" with
      | none => simp [compute_averages, h1, h2', h3]
      | some racevals => simp [compute_averages, h1, h2', h3]
    · intro c hc
      exact getCol_setCol_ne _ _ _ _ hc

/-- Claim C10 witness: on a two-column frame the `ruca=True` call rewrites
the ruca column to urban/rural strings in place, and the `ruca=False` call
leaves the frame untouched. -/
theorem compute_averages_mutation_witness :
    (compute_averages [("ruca", [Val.num 5]), ("race", [Val.str "w"])] ["v"] "w" "rural"
        true).1
      = setCol [("ruca", [Val.num 5]), ("race", [Val.str "w"])] "ruca" [Val.str "rural"]
    ∧ (compute_averages [("ruca", [Val.num 5]), ("race", [Val.str "w"])] ["v"] "w" "rural"
        false).1
      = [("ruca", [Val.num 5]), ("race", [Val.str "w"])] :=
  ⟨(compute_averages_mutation.2 [("ruca", [Val.num 5]), ("race", [Val.str "w"])] ["v"]
      "w" "rural" [Val.num 5] [Val.str "rural"] rfl rfl).1,
   compute_averages_mutation.1 [("ruca", [Val.num 5]), ("race", [Val.str "w"])] ["v"]
      "w" "rural"⟩

theorem getCol_maskFilter (df : DataFrame) (m : List Bool) (c : String) :
    getCol (maskFilter df m) c = (getCol df c).map (applyMask m) := by
  induction df with
  | nil => rfl
  | cons p rest ih =>
      by_cases h : p.1 = c
      · simp [maskFilter, getCol, h]
      · simp [maskFilter, getCol, h] at ih ⊢
        exact ih

theorem coerceVars_missing (c : String) (varList : List String) (df : DataFrame)
    (hc : c ∈ varList) (habs : getCol df c = none) :
    ∃ e, coerceVars df varList = .error e := by
  induction varList generalizing df with
  | nil => cases hc
  | cons v rest ih =>
      cases hv : getCol df v with
      | none => exact ⟨"KeyError: " ++ v, by simp [coerceVars, hv]⟩
      | some vs =>
          have hcv : c ≠ v := by
            rintro rfl
            rw [habs] at hv
            cases hv
          have hc' : c ∈ rest := by
            rcases List.mem_cons.mp hc with h | h
            · exact absurd h hcv
            · exact h
          cases hm : List.mapM.loop toFloat vs [] with
          | error e => exact ⟨e, by simp [coerceVars, hv, hm]⟩
          | ok vs' =>
              obtain ⟨e, he⟩ := ih (setCol df v vs') hc'
                (by rw [getCol_setCol_ne _ _ _ _ hcv, habs])
              exact ⟨e, by simp [coerceVars, hv, hm, he]⟩

/-- Claim C3: whenever a group-by column (`race`, `area`, or — with RUCA
classification on — `ruca`) or any requested variable is absent from the
input frame, `compute_averages` raises (`KeyError`/`ValueError`) instead of
returning a frame, so no averages are computed and no partial result is
produced. -/
theorem compute_averages_missing_col_error (df : DataFrame) (varList : List String)
    (race area : String) (ruca : Bool) (c : String)
    (hc : c ∈ (if ruca then ["race", "ruca"] else ["race", "area"]) ++ varList)
    (habs : getCol df c = none) :
    ∃ e, (compute_averages df varList race area ruca).2 = .error e := by
  cases ruca with
  | false =>
      simp only [if_false, Bool.false_eq_true, List.cons_append, List.nil_append,
        List.mem_cons] at hc
      cases h1 : getCol df "race" with
      | none => exact ⟨"KeyError: race", by simp [compute_averages, h1]⟩
      | some racevals =>
          cases h2 : getCol df "area" with
          | none => exact ⟨"KeyError: area", by simp [compute_averages, h1, h2]⟩
          | some areavals =>
              have hcv : c ∈ varList := by
                rcases hc with rfl | rfl | h
                · rw [habs] at h1; cases h1
                · rw [habs] at h2; cases h2
                · exact h
              obtain ⟨e, he⟩ := coerceVars_missing c varList
                (maskFilter df (List.zipWith
                  (fun r a => decide (r = Val.str race) && decide (a = Val.str area))
                  racevals areavals)) hcv
                (by rw [getCol_maskFilter, habs]; rfl)
              exact ⟨e, by simp [compute_averages, h1, h2, computeTail, he]⟩
  | true =>
      simp only [if_true, List.cons_append, List.nil_append, List.mem_cons] at hc
      cases h1 : getCol df "ruca" with
      | none => exact ⟨"KeyError: ruca", by simp [compute_averages, h1]⟩
      | some rvals =>
          cases h2 : List.mapM.loop classifyRucaVal rvals [] with
          | error e => exact ⟨e, by simp [compute_averages, h1, h2]⟩
          | ok rvals' =>
              cases h3 : getCol (setCol df "ruca" rvals') "race" with
              | none => exact ⟨"KeyError: race", by simp [compute_averages, h1, h2, h3]⟩
              | some racevals =>
                  have hcne : c ≠ "ruca" := by
                    rintro rfl
                    rw [habs] at h1
                    cases h1
                  have hcv : c ∈ varList := by
                    rcases hc with rfl | rfl | h
                    · rw [getCol_setCol_ne _ _ _ _ (by simp), habs] at h3; cases h3
                    · exact absurd rfl hcne
                    · exact h
                  obtain ⟨e, he⟩ := coerceVars_missing c varList
                    (maskFilter (setCol df "ruca" rvals') (List.zipWith
                      (fun r u => decide (r = Val.str race) && decide (u = Val.str area))
                      racevals rvals')) hcv
                    (by rw [getCol_maskFilter, getCol_setCol_ne _ _ _ _ hcne, habs]; rfl)
                  exact ⟨e, by simp [compute_averages, h1, h2, h3, computeTail, he]⟩

/-- Claim C3 witness: a frame lacking the `race` group-by column makes the
call fail. -/
theorem compute_averages_missing_col_error_witness :
    ∃ e, (compute_averages [("area", [Val.str "a"])] ["v"] "r" "a" false).2 = .error e :=
  compute_averages_missing_col_error [("area", [Val.str "a"])] ["v"] "r" "a" false "race"
    (by simp) rfl

theorem download_shapefile_step_mono (net : String → Option (List String))
    (year state dest : String) (acc : List String × List String) (g a : String)
    (h : a ∈ acc.1) : a ∈ (download_shapefile_step net year state dest acc g).1 := by
  by_cases hz : shapefile_zip_path dest year g ∈ acc.1
  · simpa [download_shapefile_step, hz] using h
  · cases hn : net (shapefile_url year state g) with
    | none => simpa [download_shapefile_step, hz, hn] using h
    | some members =>
        simp [download_shapefile_step, hz, hn, h]

theorem download_shapefile_step_zip_mem (net : String → Option (List String))
    (year state dest : String) (acc : List String × List String) (g : String)
    (h : (net (shapefile_url year state g)).isSome = true) :
    shapefile_zip_path dest year g ∈ (download_shapefile_step net year state dest acc g).1 := by
  by_cases hz : shapefile_zip_path dest year g ∈ acc.1
  · simp [download_shapefile_step, hz]
  · obtain ⟨members, hm⟩ := Option.isSome_iff_exists.mp h
    simp [download_shapefile_step, hz, hm]

theorem download_shapefile_step_skip (net : String → Option (List String))
    (year state dest : String) (acc : List String × List String) (g : String)
    (h : shapefile_zip_path dest year g ∈ acc.1) :
    download_shapefile_step net year state dest acc g = acc := by
  simp [download_shapefile_step, h]

/-- Claim C6: after one successful run of `download_shapefile` (the server
answers every geography URL), all four archive files exist, so a second
invocation with the same year, state and destination fetches no URL at all
and leaves the filesystem contents exactly as they were. -/
theorem download_shapefile_idempotent (net : String → Option (List String))
    (year state dest : String) (fs : List String)
    (h : ∀ g ∈ shapefile_geographies, (net (shapefile_url year state g)).isSome = true) :
    download_shapefile net year state dest (download_shapefile net year state dest fs).1
      = ((download_shapefile net year state dest fs).1, []) := by
  have hs := h "state" (by simp [shapefile_geographies])
  have hc := h "county" (by simp [shapefile_geographies])
  have ht := h "tract" (by simp [shapefile_geographies])
  have hb := h "bg" (by simp [shapefile_geographies])
  have e1 : download_shapefile net year state dest fs
      = download_shapefile_step net year state dest
          (download_shapefile_step net year state dest
            (download_shapefile_step net year state dest
              (download_shapefile_step net year state dest (fs, []) "state") "county")
            "tract") "bg" := by
    simp [download_shapefile, shapefile_geographies]
  have ms : shapefile_zip_path dest year "state"
      ∈ (download_shapefile net year state dest fs).1 := by
    rw [e1]
    exact download_shapefile_step_mono _ _ _ _ _ _ _
      (download_shapefile_step_mono _ _ _ _ _ _ _
        (download_shapefile_step_mono _ _ _ _ _ _ _
          (download_shapefile_step_zip_mem _ _ _ _ _ _ hs)))
  have mc : shapefile_zip_path dest year "county"
      ∈ (download_shapefile net year state dest fs).1 := by
    rw [e1]
    exact download_shapefile_step_mono _ _ _ _ _ _ _
      (download_shapefile_step_mono _ _ _ _ _ _ _
        (download_shapefile_step_zip_mem _ _ _ _ _ _ hc))
  have mt : shapefile_zip_path dest year "tract"
      ∈ (download_shapefile net year state dest fs).1 := by
    rw [e1]
    exact download_shapefile_step_mono _ _ _ _ _ _ _
      (download_shapefile_step_zip_mem _ _ _ _ _ _ ht)
  have mb : shapefile_zip_path dest year "bg"
      ∈ (download_shapefile net year state dest fs).1 := by
    rw [e1]
    exact download_shapefile_step_zip_mem _ _ _ _ _ _ hb
  have e2 : download_shapefile net year state dest
        (download_shapefile net year state dest fs).1
      = download_shapefile_step net year state dest
          (download_shapefile_step net year state dest
            (download_shapefile_step net year state dest
              (download_shapefile_step net year state dest
                ((download_shapefile net year state dest fs).1, []) "state") "county")
            "tract") "bg" := by
    simp [download_shapefile, shapefile_geographies]
  rw [e2,
    download_shapefile_step_skip net year state dest
      ((download_shapefile net year state dest fs).1, []) "state" ms,
    download_shapefile_step_skip net year state dest
      ((download_shapefile net year state dest fs).1, []) "county" mc,
    download_shapefile_step_skip net year state dest
      ((download_shapefile net year state dest fs).1, []) "tract" mt,
    download_shapefile_step_skip net year state dest
      ((download_shapefile net year state dest fs).1, []) "bg" mb]

/-- Claim C6 witness: with a server that always answers, the second run
after a first run from an empty directory is a no-op. -/
theorem download_shapefile_idempotent_witness :
    download_shapefile (fun _ => some ["f.shp"]) "2019" "27" "dat"
        (download_shapefile (fun _ => some ["f.shp"]) "2019" "27" "dat" []).1
      = ((download_shapefile (fun _ => some ["f.shp"]) "2019" "27" "dat" []).1, []) :=
  download_shapefile_idempotent (fun _ => some ["f.shp"]) "2019" "27" "dat" []
    (fun _ _ => rfl)
